import Mathlib

/-!
Verification development for the xArm servo controller protocol layer
(Python/xarm/controller.py).

The embedding is shallow: machine bytes are Nat values, Python ints are
Int, Python floats are rationals, and fallible Python code returns
Except values whose error constructors mirror the Python exception
classes that can escape (ValueError, TypeError, IndexError, Exception).
Writes to the transport are modelled as the list of frames handed to
the Controller._send method; reads are modelled as oracles supplying
the decoded reply (or the probe outcome) for each request.
-/

namespace XArm

set_option maxRecDepth 10000

/-- Python exception values raised by the controller code. -/
inductive PyError where
  | valueError (msg : String)
  | typeError
  | indexError
  | exception (msg : String)
deriving DecidableEq, Repr

/-- Controller.SIGNATURE (controller.py line 7). -/
def SIGNATURE : Nat := 0x55

/-- Controller.CMD_SERVO_MOVE (controller.py line 8). -/
def CMD_SERVO_MOVE : Nat := 0x03

/-- Controller.CMD_GET_BATTERY_VOLTAGE (controller.py line 9). -/
def CMD_GET_BATTERY_VOLTAGE : Nat := 0x0f

/-- Controller.CMD_SERVO_STOP (controller.py line 10). -/
def CMD_SERVO_STOP : Nat := 0x14

/-- Controller.CMD_GET_SERVO_POSITION (controller.py line 11). -/
def CMD_GET_SERVO_POSITION : Nat := 0x15

/-- Controller.CMD_SERVO_ID_WRITE (controller.py line 12). -/
def CMD_SERVO_ID_WRITE : Nat := 0x1b

/-- A frame handed to the transport: the command opcode and the payload
bytes, the two arguments of Controller._send. -/
structure Frame where
  cmd : Nat
  data : List Nat
deriving DecidableEq, Repr

/-- Frame encoder, from Controller._send (controller.py lines 181-203):
the bytes put on the wire are the header [0x55, 0x55, len(data) + 2, cmd]
followed by the payload bytes.  The USB path additionally prepends a
report id byte 0x00 which the HID transport strips again, so the logical
frame is identical on both transports. -/
def sendFrame (cmd : Nat) (data : List Nat) : List Nat :=
  [SIGNATURE, SIGNATURE, data.length + 2, cmd] ++ data

/-- Frame decoder, from Controller._recv (controller.py lines 205-234,
USB branch, which sees the whole report at once).  Fewer than 4 bytes,
a bad signature pair or a wrong echoed command byte yield none.
Otherwise the declared length is read from byte 2 and the result is the
Python slice report[4:4 + length]: the bytes after the 4 byte header,
truncated to the declared length, and silently truncated further when
fewer bytes are available (Python slicing clamps; the serial branch
likewise returns whatever device.read delivered, without a length
check). -/
def recvFrame (cmd : Nat) (report : List Nat) : Option (List Nat) :=
  if report.length < 4 then none
  else if report.getD 0 0 = SIGNATURE ∧ report.getD 1 0 = SIGNATURE ∧
      report.getD 3 0 = cmd then
    some ((report.drop 4).take (report.getD 2 0))
  else none

/-- Modelled from the spec: a servo object (the Servo class lives in
xarm/servo.py, which is not among the sources here).  The spec describes
it as a record carrying a servo id and a position field that
setPosition reads and getPosition writes; both are Python ints. -/
structure Servo where
  servo_id : Int
  position : Int
deriving DecidableEq, Repr

/-- Low byte of a Python int, the expression p and 0xff.  Python bitwise
and against 0xff equals the nonnegative remainder mod 256, which is
Int.emod. -/
def loByte (p : Int) : Nat := (Int.emod p 256).toNat

/-- High byte of a Python int, the expression (p and 0xff00) shifted
right by 8: the bits 8..15 of the two-complement value, equal to the
nonnegative remainder mod 65536 divided by 256. -/
def hiByte (p : Int) : Nat := (Int.ediv (Int.emod p 65536) 256).toNat

/-- A raw int stored into a bytearray: Python raises
ValueError("byte must be in range(0, 256)") unless 0 <= v < 256. -/
def mkByte (v : Int) : Except PyError Nat :=
  if 0 ≤ v ∧ v < 256 then .ok v.toNat
  else .error (.valueError "byte must be in range 0 to 256")

/-- Modelled from the spec: the external converter
Util._angle_to_position (xarm/util.py is not among the sources here).
The spec contract only requires a monotonic map from angles in
[-125, 125] degrees to positions in [0, 1000]; we use the linear map
with the quantization floor. -/
def angle_to_position (a : ℚ) : Int := Int.floor ((a + 125) * 4)

/-- A Python value passed as a position: an int, a float (modelled as a
rational) or some other object (for example a string or None). -/
inductive PosVal where
  | int (n : Int)
  | float (a : ℚ)
  | other
deriving DecidableEq, Repr

/-- One element of the list accepted by setPosition
(controller.py lines 58-72): a Servo object, a 2-element sequence whose
first item is an int (the second item carried as a PosVal), a sized
element failing that shape test (raising ValueError at line 72), or an
element without a length (so that len(servo) itself raises TypeError). -/
inductive ListItem where
  | servo (s : Servo)
  | pair (i : Int) (v : PosVal)
  | badTuple
  | noLen
deriving DecidableEq, Repr

/-- The polymorphic servos argument of setPosition
(controller.py lines 43-74): a plain int id, a Servo object, a list, or
anything else (raising ValueError at line 74). -/
inductive ServosArg where
  | intId (n : Int)
  | servo (s : Servo)
  | list (items : List ListItem)
  | other
deriving DecidableEq, Repr

/-- The two bytes produced by the expressions position and 0xff and
(position and 0xff00) shifted right by 8 when position currently holds
the given value:  Python raises TypeError unless that value is an int
(it is None when the parameter was omitted, or a float or other object
that never went through the int branch). -/
def posBytes (pos : Option PosVal) : Except PyError (Nat × Nat) :=
  match pos with
  | some (.int p) => .ok (loByte p, hiByte p)
  | _ => .error .typeError

/-- The loop over the list elements in setPosition
(controller.py lines 58-72).  The pos argument models the current value
of the Python local variable position, which starts as the position
parameter and is reassigned by the int branch (line 65) and the float
branch (line 69); a 2-element pair whose second item is neither int nor
float skips both branches and reaches the extend at line 70 with the
stale value.  Byte range checks model the bytearray.extend calls. -/
def setPosLoop (items : List ListItem) (pos : Option PosVal) (acc : List Nat) :
    Except PyError (List Nat) :=
  match items with
  | [] => .ok acc
  | .servo s :: rest =>
      match mkByte s.servo_id with
      | .ok idb => setPosLoop rest pos (acc ++ [idb, loByte s.position, hiByte s.position])
      | .error e => .error e
  | .pair i v :: rest =>
      match v with
      | .int p =>
          if p < 0 ∨ 1000 < p then
            .error (.valueError "Parameter position must be between 0 and 1000")
          else
            match mkByte i with
            | .ok idb => setPosLoop rest (some (.int p)) (acc ++ [idb, loByte p, hiByte p])
            | .error e => .error e
      | .float a =>
          if a < -125 ∨ 125 < a then
            .error (.valueError "Parameter position must be between -125.0 and 125.0")
          else
            match mkByte i with
            | .ok idb =>
                setPosLoop rest (some (.int (angle_to_position a)))
                  (acc ++ [idb, loByte (angle_to_position a), hiByte (angle_to_position a)])
            | .error e => .error e
      | .other =>
          match posBytes pos with
          | .ok pb =>
              match mkByte i with
              | .ok idb => setPosLoop rest pos (acc ++ [idb, pb.1, pb.2])
              | .error e => .error e
          | .error e => .error e
  | .badTuple :: _ => .error (.valueError "Parameter list servos is not valid")
  | .noLen :: _ => .error .typeError

/-- Controller.setPosition (controller.py lines 40-76).  Returns the
single frame handed to _send on success, or the Python exception raised
before anything was sent.  The wait flag only sleeps after the send and
is omitted. -/
def setPosition (servos : ServosArg) (position : Option PosVal) (duration : Int) :
    Except PyError Frame :=
  match servos with
  | .intId n =>
      match position with
      | none => .error (.valueError "Parameter position missing")
      | some (.int p) =>
          if p < 0 ∨ 1000 < p then
            .error (.valueError "Parameter position must be between 0 and 1000")
          else
            match mkByte n with
            | .ok nb =>
                .ok ⟨CMD_SERVO_MOVE,
                  [1, loByte duration, hiByte duration, nb, loByte p, hiByte p]⟩
            | .error e => .error e
      | some (.float a) =>
          if a < -125 ∨ 125 < a then
            .error (.valueError "Parameter position must be between -125.0 and 125.0")
          else
            match mkByte n with
            | .ok nb =>
                .ok ⟨CMD_SERVO_MOVE,
                  [1, loByte duration, hiByte duration, nb,
                   loByte (angle_to_position a), hiByte (angle_to_position a)]⟩
            | .error e => .error e
      | some .other => .error .typeError
  | .servo s =>
      match mkByte s.servo_id with
      | .ok idb =>
          .ok ⟨CMD_SERVO_MOVE,
            [1, loByte duration, hiByte duration, idb,
             loByte s.position, hiByte s.position]⟩
      | .error e => .error e
  | .list items =>
      match mkByte (items.length : Int) with
      | .ok cnt =>
          match setPosLoop items position [cnt, loByte duration, hiByte duration] with
          | .ok payload => .ok ⟨CMD_SERVO_MOVE, payload⟩
          | .error e => .error e
      | .error e => .error e
  | .other => .error (.valueError "Parameter servos is not valid")

/-- The frames actually written to the transport by a setPosition call:
_send is reached only at line 76, after all validation, so an erroring
call writes nothing and a successful call writes its one frame. -/
def sentFrames : Except PyError Frame → List Frame
  | .ok f => [f]
  | .error _ => []

/-- The reply interpretation step of Controller.getPosition for a list
argument (controller.py lines 95-105): given the decoded reply payload
(none when _recv returned None, which raises Exception at line 105),
run the loop for i in range(data[0]) assigning
servos[i].position = data[i*3+3] * 256 + data[i*3+2].  Index errors of
the Python list accesses are modelled explicitly. -/
def getPosUpdateLoop (data : List Nat) : List Nat → List Servo → Except PyError (List Servo)
  | [], servos => .ok servos
  | i :: rest, servos =>
      match data.get? (i * 3 + 3), data.get? (i * 3 + 2), servos.get? i with
      | some hi, some lo, some s =>
          getPosUpdateLoop data rest (servos.set i ⟨s.servo_id, (hi * 256 + lo : Int)⟩)
      | _, _, _ => .error .indexError

/-- Controller.getPosition, list branch, reply handling
(controller.py lines 95-105). -/
def getPositionList (servos : List Servo) (reply : Option (List Nat)) :
    Except PyError (List Servo) :=
  match reply with
  | none => .error (.exception "Function getPosition recv error")
  | some data =>
      match data.get? 0 with
      | some count => getPosUpdateLoop data (List.range count) servos
      | none => .error .indexError

/-- The request frame sent by getPosition(i) for a single int id
(controller.py lines 82-83 and 93): payload [1, i]. -/
def getPositionProbeFrame (i : Nat) : Frame := ⟨CMD_GET_SERVO_POSITION, [1, i]⟩

/-- One iteration of the discovery loop in Controller.listServos
(controller.py lines 152-157).  The state is the (found ids, frames
sent so far) pair.  env i is the probe oracle: some position when
getPosition(i) succeeds, none when it raises for any reason after the
send (timeout, malformed reply); the bare except swallows either.  An
id not fitting a byte makes bytearray([1, i]) inside getPosition raise
before the send, also swallowed, so no frame goes out for it. -/
def probeServo (env : Nat → Option Nat) (st : List Nat × List Frame) (i : Nat) :
    List Nat × List Frame :=
  if i < 256 then
    match env i with
    | some _ => (st.1 ++ [i], st.2 ++ [getPositionProbeFrame i])
    | none => (st.1, st.2 ++ [getPositionProbeFrame i])
  else (st.1, st.2)

/-- Controller.listServos (controller.py lines 150-161): reset
self.servos to [] (line 151), probe ids 1 .. maximum_servo_id in order,
appending each responsive id; returns the new cache together with the
frames sent.  The previous cache is discarded unconditionally. -/
def listServos (env : Nat → Option Nat) (maximum_servo_id : Nat) :
    List Nat × List Frame :=
  (List.range' 1 maximum_servo_id).foldl (probeServo env) ([], [])

/-- The list of probe request frames for ids 1 .. maximum_servo_id. -/
def probeFrames (maximum_servo_id : Nat) : List Frame :=
  (List.range' 1 maximum_servo_id).map getPositionProbeFrame

/-- Controller.writeServoId (controller.py lines 132-148).  Takes the
probe oracle, the currently cached self.servos list, the new id and the
overwrite_all_servo_ids flag; returns the frames written to the
transport together with either the new cache on success or the Python
exception raised.  Mirrors the source order: discovery first unless
overwrite_all_servo_ids (line 134), then the empty check (line 137),
the ambiguity check (line 140), the zero id check (line 144), the
bytearray construction (line 147) and finally the send (line 148). -/
def writeServoId (env : Nat → Option Nat) (servos : List Nat)
    (new_servo_id : Nat) (overwrite_all_servo_ids : Bool) :
    List Frame × Except PyError (List Nat) :=
  match (if overwrite_all_servo_ids then (servos, ([] : List Frame))
         else listServos env 6) with
  | (found, sent) =>
      if found.length = 0 then
        (sent, .error (.valueError "No servos to update their id"))
      else if 1 < found.length ∧ overwrite_all_servo_ids = false then
        (sent, .error (.valueError "More than one servo is connected"))
      else if new_servo_id = 0 then
        (sent, .error (.valueError "new_servo_id must be non-zero"))
      else if 256 ≤ new_servo_id then
        (sent, .error (.valueError "byte must be in range 0 to 256"))
      else
        (sent ++ [⟨CMD_SERVO_ID_WRITE, [new_servo_id]⟩], .ok found)

/-- Observable trace of one Controller.getBatteryVoltage call: how many
frames were sent (one per attempt), how many one second sleeps happened
(one per failed attempt), and the returned value (volts as a rational)
or the escaping exception. -/
structure BattTrace where
  sends : Nat
  sleeps : Nat
  result : Except PyError ℚ
deriving Repr

/-- The retry loop of Controller.getBatteryVoltage
(controller.py lines 163-179), with remaining = 5 - tries iterations
left.  replies gives the _recv result of each attempt; the Python test
if not data treats both None and an empty payload as a failed attempt.
On a nonempty payload the code returns (data[1] * 256 + data[0]) / 1000.0,
raising IndexError when only one byte arrived; after the loop it
returns 0.0. -/
def getBatteryAux (replies : Nat → Option (List Nat)) :
    Nat → Nat → Nat → Nat → BattTrace
  | 0, _, sends, sleeps => ⟨sends, sleeps, .ok 0⟩
  | remaining + 1, attempt, sends, sleeps =>
      match replies attempt with
      | none => getBatteryAux replies remaining (attempt + 1) (sends + 1) (sleeps + 1)
      | some [] => getBatteryAux replies remaining (attempt + 1) (sends + 1) (sleeps + 1)
      | some (b :: bs) =>
          match bs.get? 0 with
          | some hi => ⟨sends + 1, sleeps, .ok ((hi * 256 + b : ℚ) / 1000)⟩
          | none => ⟨sends + 1, sleeps, .error .indexError⟩

/-- Controller.getBatteryVoltage (controller.py lines 163-179): up to 5
attempts starting from attempt 0 with no frames sent yet. -/
def getBatteryVoltage (replies : Nat → Option (List Nat)) : BattTrace :=
  getBatteryAux replies 5 0 0 0

/-- C1.  Frame round trip: for every command opcode and every payload of
length 0 to 250, decoding the bytes produced by the frame encoder with
the same expected command yields exactly the original payload. -/
theorem frame_round_trip (cmd : Nat) (payload : List Nat)
    (h : payload.length ≤ 250) :
    recvFrame cmd (sendFrame cmd payload) = some payload := by
  have hlen : ¬ (sendFrame cmd payload).length < 4 := by
    simp [sendFrame]
  rw [recvFrame, if_neg hlen, if_pos]
  · have hdrop : (sendFrame cmd payload).drop 4 = payload := by
      simp [sendFrame]
    have hgd : (sendFrame cmd payload).getD 2 0 = payload.length + 2 := by
      simp [sendFrame]
    rw [hdrop, hgd, List.take_of_length_le (by omega)]
  · refine ⟨?_, ?_, ?_⟩ <;> simp [sendFrame]

/-- Concrete instance of the frame round trip at the move opcode with a
3 byte payload. -/
theorem frame_round_trip_witness :
    recvFrame CMD_SERVO_MOVE (sendFrame CMD_SERVO_MOVE [1, 232, 3]) =
      some [1, 232, 3] :=
  frame_round_trip CMD_SERVO_MOVE [1, 232, 3] (by decide)

/-- C3 counterexample: a reply whose 4 byte header is valid (signatures
0x55, echoed command 0x15) and declares frame length 5, but which
carries only one byte after the header, is not rejected; the decoder
returns the truncated one byte payload instead of a malformed frame
error. -/
theorem recv_truncated_payload :
    recvFrame 0x15 [0x55, 0x55, 5, 0x15, 1] = some [1] := by
  decide

/-- C3 amended: a reply shorter than 4 bytes, with a bad signature pair
or with a wrong echoed command byte yields no payload; but a short read
after a valid header is not detected: the decoder returns the available
bytes truncated to the declared length, so the payload length is the
minimum of the declared length and the bytes available, possibly
shorter than declared. -/
theorem recvFrame_characterization (cmd : Nat) (report : List Nat) :
    (recvFrame cmd report = none ↔
      (report.length < 4 ∨
        ¬ (report.getD 0 0 = SIGNATURE ∧ report.getD 1 0 = SIGNATURE ∧
           report.getD 3 0 = cmd))) ∧
    (∀ p, recvFrame cmd report = some p →
      p = (report.drop 4).take (report.getD 2 0) ∧
      p.length = min (report.getD 2 0) (report.length - 4)) := by
  unfold recvFrame
  split_ifs with h1 h2
  · exact ⟨iff_of_true rfl (Or.inl h1), fun p hp => absurd hp (by simp)⟩
  · constructor
    · exact iff_of_false (by simp) (by rintro (hc | hc); exacts [h1 hc, hc h2])
    · rintro p hp
      have hp2 : p = (report.drop 4).take (report.getD 2 0) :=
        (Option.some.inj hp).symm
      refine ⟨hp2, ?_⟩
      rw [hp2]
      simp [List.length_take, Nat.min_def]
  · exact ⟨iff_of_true rfl (Or.inr h2), fun p hp => absurd hp (by simp)⟩

/-- Concrete instance of the decode characterization: the truncated
reply from the counterexample satisfies the amended description, with
payload length min 5 1 = 1. -/
theorem recvFrame_characterization_witness :
    ([1] : List Nat) =
      (([0x55, 0x55, 5, 0x15, 1] : List Nat).drop 4).take
        (([0x55, 0x55, 5, 0x15, 1] : List Nat).getD 2 0) ∧
    ([1] : List Nat).length =
      min (([0x55, 0x55, 5, 0x15, 1] : List Nat).getD 2 0)
        (([0x55, 0x55, 5, 0x15, 1] : List Nat).length - 4) :=
  (recvFrame_characterization 0x15 [0x55, 0x55, 5, 0x15, 1]).2 [1] (by decide)

/-- Helper: when every remaining attempt gets no data (None or an empty
payload), the battery loop runs them all, sending and sleeping once per
attempt, and falls out of the loop returning 0. -/
theorem getBatteryAux_allfail (replies : Nat → Option (List Nat)) :
    ∀ (remaining attempt sends sleeps : Nat),
      (∀ j, j < remaining →
        replies (attempt + j) = none ∨ replies (attempt + j) = some []) →
      getBatteryAux replies remaining attempt sends sleeps =
        ⟨sends + remaining, sleeps + remaining, .ok 0⟩ := by
  intro remaining
  induction remaining with
  | zero => intro attempt sends sleeps _; simp [getBatteryAux]
  | succ r ih =>
      intro attempt sends sleeps hfail
      have h0 := hfail 0 (Nat.succ_pos r)
      rw [Nat.add_zero] at h0
      have hrest : ∀ j, j < r →
          replies (attempt + 1 + j) = none ∨ replies (attempt + 1 + j) = some [] := by
        intro j hj
        have := hfail (j + 1) (by omega)
        rwa [show attempt + (j + 1) = attempt + 1 + j by omega] at this
      have hstep := ih (attempt + 1) (sends + 1) (sleeps + 1) hrest
      rcases h0 with h0 | h0 <;>
        · simp only [getBatteryAux, h0]
          rw [hstep]
          congr 1 <;> first | omega | rfl

/-- Helper: when the first k attempts get no data and attempt k (still
within the 5) yields a two byte payload, the loop returns on attempt k
with the little endian millivolt value divided by 1000, having sent
k + 1 frames and slept k times. -/
theorem getBatteryAux_success (replies : Nat → Option (List Nat)) :
    ∀ (k remaining attempt sends sleeps lo hi : Nat),
      k < remaining →
      (∀ j, j < k →
        replies (attempt + j) = none ∨ replies (attempt + j) = some []) →
      replies (attempt + k) = some [lo, hi] →
      getBatteryAux replies remaining attempt sends sleeps =
        ⟨sends + k + 1, sleeps + k, .ok ((hi * 256 + lo : ℚ) / 1000)⟩ := by
  intro k
  induction k with
  | zero =>
      intro remaining attempt sends sleeps lo hi hk _ hr
      rw [Nat.add_zero] at hr
      cases remaining with
      | zero => exact absurd hk (by omega)
      | succ r =>
          rw [getBatteryAux, hr]
          simp
  | succ k ih =>
      intro remaining attempt sends sleeps lo hi hk hprev hr
      cases remaining with
      | zero => exact absurd hk (by omega)
      | succ r =>
          have h0 := hprev 0 (Nat.succ_pos k)
          rw [Nat.add_zero] at h0
          have hprev1 : ∀ j, j < k →
              replies (attempt + 1 + j) = none ∨ replies (attempt + 1 + j) = some [] := by
            intro j hj
            have := hprev (j + 1) (by omega)
            rwa [show attempt + (j + 1) = attempt + 1 + j by omega] at this
          have hr1 : replies (attempt + 1 + k) = some [lo, hi] := by
            rwa [show attempt + (k + 1) = attempt + 1 + k by omega] at hr
          have hstep := ih r (attempt + 1) (sends + 1) (sleeps + 1) lo hi
            (by omega) hprev1 hr1
          rcases h0 with h0 | h0 <;>
            · simp only [getBatteryAux, h0]
              rw [hstep]
              congr 1 <;> first | omega | rfl

/-- C8.  Battery retry policy: when the transport yields no valid reply
on every attempt, getBatteryVoltage makes exactly 5 attempts (5 frames
sent), sleeps one time unit after each failed attempt (5 sleeps) and
returns the sentinel 0.0 instead of raising; and on the first attempt
carrying a valid 2 byte reply it returns
(high byte * 256 + low byte) / 1000 volts, having slept once per
preceding failed attempt. -/
theorem getBatteryVoltage_retry (replies : Nat → Option (List Nat)) :
    ((∀ k, k < 5 → replies k = none ∨ replies k = some []) →
      getBatteryVoltage replies = ⟨5, 5, .ok 0⟩) ∧
    (∀ k lo hi, k < 5 →
      (∀ j, j < k → replies j = none ∨ replies j = some []) →
      replies k = some [lo, hi] →
      getBatteryVoltage replies = ⟨k + 1, k, .ok ((hi * 256 + lo : ℚ) / 1000)⟩) := by
  constructor
  · intro hfail
    have := getBatteryAux_allfail replies 5 0 0 0 (by simpa using hfail)
    simpa [getBatteryVoltage] using this
  · intro k lo hi hk hprev hr
    have := getBatteryAux_success replies k 5 0 0 0 lo hi hk
      (by simpa using hprev) (by simpa using hr)
    simpa [getBatteryVoltage] using this

/-- Concrete instances of the battery retry policy: an always silent
transport gives 5 sends, 5 sleeps and the 0 sentinel; a transport that
answers [232, 3] (1000 millivolts, little endian) on the third attempt
gives 3 sends, 2 sleeps and 1 volt. -/
theorem getBatteryVoltage_retry_witness :
    getBatteryVoltage (fun _ => none) = ⟨5, 5, .ok 0⟩ ∧
    getBatteryVoltage (fun k => if k = 2 then some [232, 3] else none) =
      ⟨3, 2, .ok ((3 * 256 + 232 : ℚ) / 1000)⟩ := by
  constructor
  · exact (getBatteryVoltage_retry (fun _ => none)).1 (fun k _ => Or.inl rfl)
  · exact (getBatteryVoltage_retry (fun k => if k = 2 then some [232, 3] else none)).2
      2 232 3 (by decide) (fun j hj => Or.inl (if_neg (by omega)))
      (if_pos rfl)

/-- Helper: the discovery fold appends, to whatever was accumulated so
far, the responsive ids in probe order and one probe frame per id, as
long as every probed id fits a byte. -/
theorem foldl_probeServo (env : Nat → Option Nat) (l : List Nat) :
    ∀ acc : List Nat × List Frame, (∀ i ∈ l, i < 256) →
      l.foldl (probeServo env) acc =
        (acc.1 ++ l.filter (fun i => (env i).isSome),
         acc.2 ++ l.map getPositionProbeFrame) := by
  induction l with
  | nil => intro acc _; simp
  | cons x xs ih =>
      intro acc hl
      have hx : x < 256 := hl x (List.mem_cons_self x xs)
      have hxs : ∀ i ∈ xs, i < 256 := fun i hi => hl i (List.mem_cons_of_mem x hi)
      rw [List.foldl_cons, ih (probeServo env acc x) hxs]
      cases h : env x <;>
        simp [probeServo, h, hx, List.filter_cons]

/-- C9.  Discovery: listServos probes ids 1 .. maximum_servo_id in
ascending order, sending one getPosition query frame per id; every id
whose probe fails is silently excluded; the resulting cache (which
replaces the previous one, the loop starting from the empty list) is
exactly the ascending list of responsive ids. -/
theorem listServos_spec (env : Nat → Option Nat) (maximum_servo_id : Nat)
    (h : maximum_servo_id ≤ 255) :
    (listServos env maximum_servo_id).1 =
      (List.range' 1 maximum_servo_id).filter (fun i => (env i).isSome) ∧
    (listServos env maximum_servo_id).2 = probeFrames maximum_servo_id ∧
    ((listServos env maximum_servo_id).1).Pairwise (· < ·) := by
  have hb : ∀ i ∈ List.range' 1 maximum_servo_id, i < 256 := by
    intro i hi
    have := List.mem_range'_1.mp hi
    omega
  have hfold := foldl_probeServo env (List.range' 1 maximum_servo_id) ([], []) hb
  refine ⟨?_, ?_, ?_⟩
  · rw [listServos, hfold]; simp
  · rw [listServos, hfold]; simp [probeFrames]
  · rw [listServos, hfold]
    simp only [List.nil_append]
    exact List.Pairwise.sublist (List.filter_sublist _)
      (List.pairwise_lt_range' 1 maximum_servo_id)

/-- Concrete instance of the discovery property: a transport answering
for ids 1 and 3 only yields the cache [1, 3] and six probe frames. -/
theorem listServos_spec_witness :
    (listServos (fun i => if i = 1 ∨ i = 3 then some 500 else none) 6).1 = [1, 3] ∧
    (listServos (fun i => if i = 1 ∨ i = 3 then some 500 else none) 6).2 =
      probeFrames 6 :=
  ⟨((listServos_spec (fun i => if i = 1 ∨ i = 3 then some 500 else none) 6
      (by decide)).1).trans (by decide),
   (listServos_spec (fun i => if i = 1 ∨ i = 3 then some 500 else none) 6
      (by decide)).2.1⟩

/-- Helper: the discovery call made by writeServoId, with the default
maximum id 6, returns the responsive ids among 1..6 and sends the six
probe frames. -/
theorem listServos_six (env : Nat → Option Nat) :
    listServos env 6 =
      ((List.range' 1 6).filter (fun i => (env i).isSome), probeFrames 6) := by
  have hfold := foldl_probeServo env (List.range' 1 6) ([], []) (by decide)
  rw [listServos, hfold]
  simp [probeFrames]

/-- Helper: every probe frame carries the getPosition opcode. -/
theorem probeFrames_cmd (m : Nat) (f : Frame) (hf : f ∈ probeFrames m) :
    f.cmd = CMD_GET_SERVO_POSITION := by
  simp only [probeFrames, List.mem_map] at hf
  obtain ⟨i, -, rfl⟩ := hf
  rfl

/-- Helper: unfolding of writeServoId with the discovery step already
resolved, removing the intermediate pair destructuring. -/
theorem writeServoId_eq (env : Nat → Option Nat) (cache : List Nat) (n : Nat)
    (b : Bool) :
    writeServoId env cache n b =
      (let found : List Nat :=
        if b then cache else (List.range' 1 6).filter (fun i => (env i).isSome)
       let sent : List Frame := if b then [] else probeFrames 6
       if found.length = 0 then
         (sent, .error (.valueError "No servos to update their id"))
       else if 1 < found.length ∧ b = false then
         (sent, .error (.valueError "More than one servo is connected"))
       else if n = 0 then
         (sent, .error (.valueError "new_servo_id must be non-zero"))
       else if 256 ≤ n then
         (sent, .error (.valueError "byte must be in range 0 to 256"))
       else
         (sent ++ [⟨CMD_SERVO_ID_WRITE, [n]⟩], .ok found)) := by
  cases b with
  | true => rfl
  | false =>
      rw [writeServoId, listServos_six]
      rfl

/-- C2 counterexample: with the default overwrite_all_servo_ids = False
and a transport on which exactly one servo (id 3) responds,
writeServoId(0) does raise the zero id ValueError, but only after the
six discovery probe frames have been written to the transport; the
claim that no bytes are sent before the validation error is false. -/
theorem writeServoId_zero_sends_before_error :
    writeServoId (fun i => if i = 3 then some 500 else none) [] 0 false =
      (probeFrames 6, .error (.valueError "new_servo_id must be non-zero")) ∧
    probeFrames 6 ≠ [] := by
  constructor
  · rfl
  · decide

/-- C2 amended: setPosition raises its validation errors before its
single send, and writeServoId with overwrite_all_servo_ids = True
raises before sending anything, and never sends the identity write
frame on any error path; but with overwrite_all_servo_ids = False the
call runs discovery first, so the six probe frames are already on the
wire when writeServoId(0) raises its ValueError. -/
theorem validation_send_order (env : Nat → Option Nat) (cache : List Nat) (n : Nat) :
    (∀ e, (writeServoId env cache n true).2 = .error e →
      (writeServoId env cache n true).1 = []) ∧
    (∀ b e, (writeServoId env cache n b).2 = .error e →
      ∀ f ∈ (writeServoId env cache n b).1, f.cmd = CMD_GET_SERVO_POSITION) ∧
    ((writeServoId env cache 0 false).1 = probeFrames 6 ∧
      ∃ m, (writeServoId env cache 0 false).2 = .error (.valueError m)) ∧
    (∀ a p d e, setPosition a p d = .error e →
      sentFrames (setPosition a p d) = []) := by
  refine ⟨?_, ?_, ?_, ?_⟩
  · intro e he
    simp only [writeServoId_eq] at he ⊢
    split_ifs at he ⊢ <;> simp_all
  · intro b e he
    cases b with
    | true =>
        intro f hf
        simp only [writeServoId_eq] at he hf
        split_ifs at he hf <;> simp_all
    | false =>
        intro f hf
        simp only [writeServoId_eq] at he hf
        split_ifs at he hf <;>
          first
            | exact probeFrames_cmd 6 f hf
            | simp_all
  · simp only [writeServoId_eq]
    split_ifs <;> first | exact ⟨rfl, _, rfl⟩ | simp_all
  · intro a p d e he
    rw [he]
    rfl

/-- Concrete instance of the amended send order property: with an
always silent transport, a cached list and overwrite_all_servo_ids =
True, the erroring call (empty cache) sent nothing. -/
theorem validation_send_order_witness :
    (writeServoId (fun _ => none) [] 5 true).1 = [] :=
  (validation_send_order (fun _ => none) [] 5).1
    (.valueError "No servos to update their id") (by rfl)

/-- C5 counterexample: with overwrite_all_servo_ids = True and an empty
cached servo list, writeServoId(7) raises the no servos ValueError and
sends nothing, even on a transport where every probe would succeed; the
claim that the identity write frame is sent regardless of the
discovered count (including zero) is false. -/
theorem writeServoId_overwrite_empty_cache :
    writeServoId (fun _ => some 500) [] 7 true =
      ([], .error (.valueError "No servos to update their id")) := by
  rfl

/-- C5 amended: with overwrite_all_servo_ids = True and a nonzero new
id fitting a byte, writeServoId never runs discovery (its result does
not depend on the transport oracle) and sends exactly the identity
write frame whatever the cached count, provided the cached list is
nonempty; with an empty cache it raises the no servos error without
sending. -/
theorem writeServoId_overwrite_sends (env : Nat → Option Nat) (cache : List Nat)
    (n : Nat) (hn : n ≠ 0) (hb : n < 256) :
    (cache ≠ [] →
      writeServoId env cache n true = ([⟨CMD_SERVO_ID_WRITE, [n]⟩], .ok cache)) ∧
    (∀ env2, writeServoId env cache n true = writeServoId env2 cache n true) ∧
    writeServoId env [] n true =
      ([], .error (.valueError "No servos to update their id")) := by
  refine ⟨?_, fun env2 => rfl, by rfl⟩
  intro hc
  simp only [writeServoId_eq]
  rw [if_neg (by simp [List.length_eq_zero, hc]), if_neg (by simp),
    if_neg hn, if_neg (by omega)]
  simp

/-- Concrete instance of the amended overwrite property: three cached
servos, silent transport, new id 7: the identity write frame goes out
and the cache is untouched. -/
theorem writeServoId_overwrite_sends_witness :
    writeServoId (fun _ => none) [1, 2, 3] 7 true =
      ([⟨CMD_SERVO_ID_WRITE, [7]⟩], .ok [1, 2, 3]) :=
  (writeServoId_overwrite_sends (fun _ => none) [1, 2, 3] 7 (by decide)
    (by decide)).1 (by decide)

/-- C6 counterexample: with overwrite_all_servo_ids = True and an empty
cached servo list, writeServoId(0) raises the no servos ValueError, not
the zero id one: the zero id check at line 144 sits after the cache
checks, so the claim that the zero id error (and not some other error)
is always raised is false. -/
theorem writeServoId_zero_other_error :
    (writeServoId (fun _ => none) [] 0 true).2 =
      .error (.valueError "No servos to update their id") := by
  rfl

/-- C6 amended: writeServoId(0) always raises some ValueError and never
sends the identity write frame, but the error is the zero id one only
when the earlier guards pass; when the (possibly rediscovered) servo
list is empty the no servos error is raised instead, and with
overwrite_all_servo_ids = True and a nonempty cache the zero id error
is indeed reached. -/
theorem writeServoId_zero_always_fails (env : Nat → Option Nat) (cache : List Nat)
    (b : Bool) :
    (∃ m, (writeServoId env cache 0 b).2 = .error (.valueError m)) ∧
    (∀ f ∈ (writeServoId env cache 0 b).1, f.cmd ≠ CMD_SERVO_ID_WRITE) ∧
    (cache ≠ [] → (writeServoId env cache 0 true).2 =
      .error (.valueError "new_servo_id must be non-zero")) := by
  refine ⟨?_, ?_, ?_⟩
  · cases b with
    | true =>
        simp only [writeServoId_eq]
        split_ifs <;> first | exact ⟨_, rfl⟩ | simp_all
    | false =>
        simp only [writeServoId_eq]
        split_ifs <;> first | exact ⟨_, rfl⟩ | simp_all
  · intro f hf
    cases b with
    | true =>
        simp only [writeServoId_eq] at hf
        split_ifs at hf <;> simp_all
    | false =>
        simp only [writeServoId_eq] at hf
        split_ifs at hf <;>
          first
            | (rw [probeFrames_cmd 6 f hf]; decide)
            | simp_all
  · intro hc
    simp only [writeServoId_eq]
    rw [if_neg (by simp [List.length_eq_zero, hc]), if_neg (by simp)]
    simp

/-- Concrete instance of the amended zero id property: nonempty cache
and overwrite_all_servo_ids = True reach the zero id ValueError. -/
theorem writeServoId_zero_always_fails_witness :
    (writeServoId (fun _ => none) [1] 0 true).2 =
      .error (.valueError "new_servo_id must be non-zero") :=
  (writeServoId_zero_always_fails (fun _ => none) [1] true).2.2 (by decide)

/-- C10.  A Servo object passed to setPosition, alone or inside a list,
undergoes no position range validation: for every integer position,
including values outside [0, 1000], the call raises no error and
encodes the position masked to its low 16 bits, exactly the Python
expressions position and 0xff (low byte, the value mod 256) and
(position and 0xff00) shifted right by 8 (high byte, the value mod
65536 divided by 256).  The servo id is only required to fit a byte,
which the bytearray itself enforces. -/
theorem setPosition_servo_unvalidated (s : Servo) (d : Int)
    (h0 : 0 ≤ s.servo_id) (h1 : s.servo_id < 256) :
    setPosition (.servo s) none d =
      .ok ⟨CMD_SERVO_MOVE, [1, loByte d, hiByte d, s.servo_id.toNat,
        loByte s.position, hiByte s.position]⟩ ∧
    setPosition (.list [.servo s]) none d =
      .ok ⟨CMD_SERVO_MOVE, [1, loByte d, hiByte d, s.servo_id.toNat,
        loByte s.position, hiByte s.position]⟩ := by
  have hmk : mkByte s.servo_id = .ok s.servo_id.toNat := by
    rw [mkByte, if_pos ⟨h0, h1⟩]
  constructor
  · have e1 : setPosition (.servo s) none d =
        (match mkByte s.servo_id with
        | .ok idb => .ok ⟨CMD_SERVO_MOVE, [1, loByte d, hiByte d, idb,
            loByte s.position, hiByte s.position]⟩
        | .error e => .error e) := rfl
    rw [e1, hmk]
  · have e2 : setPosition (.list [.servo s]) none d =
        (match setPosLoop [.servo s] none [1, loByte d, hiByte d] with
        | .ok payload => .ok ⟨CMD_SERVO_MOVE, payload⟩
        | .error e => .error e) := rfl
    have e3 : setPosLoop [ListItem.servo s] none [1, loByte d, hiByte d] =
        (match mkByte s.servo_id with
        | .ok idb => setPosLoop [] none
            ([1, loByte d, hiByte d] ++ [idb, loByte s.position, hiByte s.position])
        | .error e => .error e) := rfl
    rw [e2, e3, hmk]
    rfl

/-- Concrete instance of the unvalidated servo object encoding: id 3
with the out of range position -1 is sent as bytes 255, 255 with no
error (duration 5 encodes as 5, 0). -/
theorem setPosition_servo_unvalidated_witness :
    setPosition (.servo ⟨3, -1⟩) none 5 =
      .ok ⟨CMD_SERVO_MOVE, [1, 5, 0, 3, 255, 255]⟩ :=
  ((setPosition_servo_unvalidated ⟨3, -1⟩ 5 (by decide) (by decide)).1).trans
    (by norm_num [loByte, hiByte]
        decide)

/-- C7 (code bug witness).  The list [(1, 200), (2, x)] whose second
element is a pair with a non numeric second item: the element (2, x)
skips both the int and the float branch and reaches the extend at line
70 with the stale position value 200 left over from the first element,
so the call raises nothing and sends a frame encoding id 2 with the
previous position 200, contradicting the documented whole call
validation error with no partial send. -/
theorem setPosition_stale_position_bug :
    setPosition (.list [.pair 1 (.int 200), .pair 2 .other]) none 1000 =
      .ok ⟨CMD_SERVO_MOVE, [2, 232, 3, 1, 200, 0, 2, 200, 0]⟩ ∧
    sentFrames
        (setPosition (.list [.pair 1 (.int 200), .pair 2 .other]) none 1000) =
      [⟨CMD_SERVO_MOVE, [2, 232, 3, 1, 200, 0, 2, 200, 0]⟩] := by
  exact ⟨rfl, rfl⟩

/-- C4 counterexample: querying the list [servo id 2, servo id 5] with
a reply carrying the records in the order (id 5, position 16),
(id 2, position 32): the code assigns by reply index, so the entry with
id 2 receives 16 (the value echoed for id 5) and the entry with id 5
receives 32, instead of matching values to ids. -/
theorem getPosition_reply_order_mismatch :
    getPositionList [⟨2, 0⟩, ⟨5, 0⟩] (some [2, 5, 16, 0, 2, 32, 0]) =
      .ok [⟨2, 16⟩, ⟨5, 32⟩] := by
  rfl

/-- Helper: the update loop over indices k .. k + m - 1 succeeds when
the indices fit the servo list and the reply data, leaves entries
outside the range untouched, and overwrites the position of entry i
with the value at reply slot i (bytes i*3+2 and i*3+3), regardless of
the echoed id byte at slot i*3+1. -/
theorem getPosUpdateLoop_spec (data : List Nat) :
    ∀ (m k : Nat) (servos : List Servo),
      k + m ≤ servos.length → 3 * (k + m) < data.length →
      ∃ r, getPosUpdateLoop data (List.range' k m) servos = .ok r ∧
        r.length = servos.length ∧
        (∀ i, i < k ∨ k + m ≤ i → r.get? i = servos.get? i) ∧
        (∀ i, k ≤ i → i < k + m →
          r.get? i = (servos.get? i).map (fun s =>
            ⟨s.servo_id,
             (data.getD (i * 3 + 3) 0 * 256 + data.getD (i * 3 + 2) 0 : Int)⟩)) := by
  intro m
  induction m with
  | zero =>
      intro k servos hlen hdata
      exact ⟨servos, rfl, rfl, fun i _ => rfl, fun i h1 h2 => absurd h2 (by omega)⟩
  | succ m ih =>
      intro k servos hlen hdata
      have hk : k < servos.length := by omega
      obtain ⟨hi, hhi⟩ : ∃ x, data.get? (k * 3 + 3) = some x := by
        cases hx : data.get? (k * 3 + 3) with
        | none => exact absurd (List.get?_eq_none.mp hx) (by omega)
        | some x => exact ⟨x, rfl⟩
      obtain ⟨lo, hlo⟩ : ∃ x, data.get? (k * 3 + 2) = some x := by
        cases hx : data.get? (k * 3 + 2) with
        | none => exact absurd (List.get?_eq_none.mp hx) (by omega)
        | some x => exact ⟨x, rfl⟩
      obtain ⟨s, hs⟩ : ∃ x, servos.get? k = some x := by
        cases hx : servos.get? k with
        | none => exact absurd (List.get?_eq_none.mp hx) (by omega)
        | some x => exact ⟨x, rfl⟩
      have hstep : getPosUpdateLoop data (List.range' k (m + 1)) servos =
          getPosUpdateLoop data (List.range' (k + 1) m)
            (servos.set k ⟨s.servo_id, (hi * 256 + lo : Int)⟩) := by
        rw [List.range'_succ]
        simp only [getPosUpdateLoop, hhi, hlo, hs]
      obtain ⟨r, hr, hrlen, hrout, hrin⟩ :=
        ih (k + 1) (servos.set k ⟨s.servo_id, (hi * 256 + lo : Int)⟩)
          (by rw [List.length_set]; omega) (by omega)
      refine ⟨r, hstep.trans hr, by rw [hrlen, List.length_set], ?_, ?_⟩
      · intro i hcase
        rw [hrout i (by omega), List.get?_set_ne _ _ (show k ≠ i by omega)]
      · intro i h1 h2
        by_cases hik : i = k
        · subst hik
          have hgd3 : data.getD (i * 3 + 3) 0 = hi := by
            rw [List.getD_eq_getD_get?, hhi]
            rfl
          have hgd2 : data.getD (i * 3 + 2) 0 = lo := by
            rw [List.getD_eq_getD_get?, hlo]
            rfl
          have hri : r.get? i = some ⟨s.servo_id, (hi * 256 + lo : Int)⟩ := by
            rw [hrout i (Or.inl (by omega)), List.get?_set_eq_of_lt _ hk]
          rw [hri, hs, hgd3, hgd2]
          rfl
        · rw [hrin i (by omega) (by omega),
            List.get?_set_ne _ _ (show k ≠ i from fun hh => hik hh.symm)]

/-- C4 amended: the reply interpretation of a list getPosition updates
entries by reply index, not by echoed id: when the reply declares as
many records as there are queried servos and is long enough, entry i of
the list receives the position bytes of reply record i (slots i*3+2 and
i*3+3), whatever ids the reply echoes; the association is only correct
when the reply order matches the request order. -/
theorem getPosition_updates_by_reply_index (servos : List Servo) (data : List Nat)
    (count : Nat) (h0 : data.get? 0 = some count) (hc : count ≤ servos.length)
    (hd : 3 * count < data.length) :
    ∃ r, getPositionList servos (some data) = .ok r ∧
      r.length = servos.length ∧
      (∀ i, i < count →
        r.get? i = (servos.get? i).map (fun s =>
          ⟨s.servo_id,
           (data.getD (i * 3 + 3) 0 * 256 + data.getD (i * 3 + 2) 0 : Int)⟩)) ∧
      (∀ i, count ≤ i → r.get? i = servos.get? i) := by
  obtain ⟨r, hr, hrlen, hrout, hrin⟩ :=
    getPosUpdateLoop_spec data count 0 servos (by omega) (by omega)
  rw [← List.range_eq_range'] at hr
  refine ⟨r, ?_, hrlen, ?_, ?_⟩
  · rw [getPositionList]
    simp only [h0]
    exact hr
  · intro i hik
    exact hrin i (by omega) (by omega)
  · intro i hik
    exact hrout i (Or.inr (by omega))

/-- Concrete instance of the reply index update: one servo with id 1,
reply [1, 1, 5, 1]: the single entry receives 1 * 256 + 5 = 261 from
reply slot 0. -/
theorem getPosition_updates_by_reply_index_witness :
    ∃ r, getPositionList [⟨1, 0⟩] (some [1, 1, 5, 1]) = .ok r ∧
      r.length = ([⟨1, 0⟩] : List Servo).length ∧
      (∀ i, i < 1 →
        r.get? i = (([⟨1, 0⟩] : List Servo).get? i).map (fun s =>
          ⟨s.servo_id,
           (([1, 1, 5, 1] : List Nat).getD (i * 3 + 3) 0 * 256 +
            ([1, 1, 5, 1] : List Nat).getD (i * 3 + 2) 0 : Int)⟩)) ∧
      (∀ i, 1 ≤ i → r.get? i = ([⟨1, 0⟩] : List Servo).get? i) :=
  getPosition_updates_by_reply_index [⟨1, 0⟩] [1, 1, 5, 1] 1 rfl (by decide)
    (by decide)

end XArm
